import Mathlib

/-!
Verification of the Aurox Clarity controller (src/aurox_clarity/controller.py).

The file shallowly embeds the module: the wire-protocol constants, the
hidapi device handle (as an abstract record of its observable behaviour),
and the Controller methods. Python list indexing and item assignment are
modelled as fallible operations returning Except, since out-of-range
access raises IndexError; calls into a closed hid handle fail with the
hid library's own error. The threading.Lock around sendCommand's body is
modelled by the with-statement semantics: acquired on entry, released on
every exit path.
-/

namespace Clarity

/-- Wire constant from controller.py: device in sleep mode. -/
def SLEEP : Nat := 0x7F

/-- Wire constant: device running. -/
def RUN : Nat := 0x0F

/-- Wire constant: door closed. -/
def DOORCLSD : Nat := 0x01

/-- Wire constant: door open. -/
def DOOROPEN : Nat := 0x02

/-- Wire constant: disk out of beam path. -/
def DSKPOS0 : Nat := 0x00

/-- Wire constant: disk position 1. -/
def DSKPOS1 : Nat := 0x01

/-- Wire constant: disk position 2. -/
def DSKPOS2 : Nat := 0x02

/-- Wire constant: disk position 3. -/
def DSKPOS3 : Nat := 0x03

/-- Wire constant: disk drive error. -/
def DSKERR : Nat := 0xFF

/-- Wire constant: disk between positions. -/
def DSKMID : Nat := 0x10

/-- Wire constant: filter position 1. -/
def FLTPOS1 : Nat := 0x01

/-- Wire constant: filter position 2. -/
def FLTPOS2 : Nat := 0x02

/-- Wire constant: filter position 3. -/
def FLTPOS3 : Nat := 0x03

/-- Wire constant: filter position 4. -/
def FLTPOS4 : Nat := 0x04

/-- Wire constant: filter drive error. -/
def FLTERR : Nat := 0xFF

/-- Wire constant: filter in mid position. -/
def FLTMID : Nat := 0x10

/-- Wire constant: calibration LED on. -/
def CALON : Nat := 0x01

/-- Wire constant: calibration LED off. -/
def CALOFF : Nat := 0x02

/-- Command byte: get firmware version. -/
def GETVERSION : Nat := 0x00

/-- Command byte: reply to a command that was not understood. -/
def CMDERROR : Nat := 0xFF

/-- Command byte: get on/off status. -/
def GETONOFF : Nat := 0x12

/-- Command byte: get door status. -/
def GETDOOR : Nat := 0x13

/-- Command byte: get disk-slide status. -/
def GETDISK : Nat := 0x14

/-- Command byte: get filter position. -/
def GETFILT : Nat := 0x15

/-- Command byte: get calibration LED status. -/
def GETCAL : Nat := 0x16

/-- Command byte: get 4-byte BCD serial number (little endian). -/
def GETSERIAL : Nat := 0x19

/-- Command byte: get full status record. -/
def FULLSTAT : Nat := 0x1F

/-- Command byte: set on/off. -/
def SETONOFF : Nat := 0x21

/-- Command byte: set disk position. -/
def SETDISK : Nat := 0x23

/-- Command byte: set filter position. -/
def SETFILT : Nat := 0x24

/-- Command byte: set calibration LED. -/
def SETCAL : Nat := 0x25

/-- Command byte: service mode. -/
def SETSVCMODE1 : Nat := 0xE0

/-- Failures the embedded code can raise: a Python IndexError from
out-of-range list access, or the hid library rejecting a call on a
closed device handle. The module itself defines no error type of its
own. -/
inductive PyErr where
  | indexOutOfRange (i : Nat)
  | hidClosed
  deriving DecidableEq, Repr

/-- Python list item assignment l[i] = v: in-place update when i is in
range, IndexError otherwise. -/
def pySet (l : List Nat) (i v : Nat) : Except PyErr (List Nat) :=
  if i < l.length then .ok (l.set i v) else .error (.indexOutOfRange i)

/-- Python list subscript l[i]: the element when i is in range,
IndexError otherwise (no negative indices occur in this code). -/
def pyGet (l : List Nat) (i : Nat) : Except PyErr Nat :=
  match l.get? i with
  | some v => .ok v
  | none => .error (.indexOutOfRange i)

/-- Abstract model of the hidapi device handle the controller owns.
writeRet is the count (or -1 for failure) the next write reports;
readRet is the byte sequence the device makes available, of which a
read delivers at most maxLength bytes within the timeout (an empty
list models nothing arriving in time). writeAttempts and readAttempts
count every call into the handle, open or closed; written logs the
frames accepted by successful writes. -/
structure Hid where
  isOpen : Bool
  writeRet : Int
  readRet : List Nat
  writeAttempts : Nat
  readAttempts : Nat
  written : List (List Nat)
  deriving DecidableEq, Repr

/-- hidapi device.write: fails on a closed handle, otherwise logs the
frame and reports writeRet (hidapi signals failure through a negative
return value, not an exception). -/
def Hid.write (h : Hid) (buf : List Nat) : Except PyErr Int × Hid :=
  let h' := { h with writeAttempts := h.writeAttempts + 1 }
  if h.isOpen then (.ok h.writeRet, { h' with written := h'.written ++ [buf] })
  else (.error .hidClosed, h')

/-- hidapi device.read(maxLength, timeoutMs): fails on a closed handle,
otherwise returns the bytes that arrived within the timeout, at most
maxLength of them; an empty list when none did. -/
def Hid.read (h : Hid) (maxLength timeoutMs : Nat) : Except PyErr (List Nat) × Hid :=
  let h' := { h with readAttempts := h.readAttempts + 1 }
  if h.isOpen then (.ok (h.readRet.take maxLength), h')
  else (.error .hidClosed, h')

/-- hidapi device.close: releases the handle; closing an already closed
handle is a no-op. -/
def Hid.close (h : Hid) : Hid := { h with isOpen := false }

/-- The Controller's state: the hid handle and the threading.Lock
(lockFree is true when no thread holds it). -/
structure Controller where
  hiddevice : Hid
  lockFree : Bool
  deriving DecidableEq, Repr

/-- Controller.__del__ (controller.py lines 114-116): close the hid
handle when the attribute exists; hasDevice models
hasattr(self, "_hiddevice"). -/
def delController (hasDevice : Bool) (h : Hid) : Hid :=
  if hasDevice then h.close else h

/-- Controller.sendCommand (controller.py lines 118-143): under the
lock, build a buffer of maxLength zero bytes, assign the command at
index 1 and the param at index 2, write the buffer, read at most
maxLength bytes and return them. The write's result is bound but never
inspected, exactly as in the source; the with-statement acquires the
lock on entry and releases it on every exit path, including
exceptions. -/
def sendCommand (c : Controller) (command param maxLength timeoutMs : Nat) :
    Except PyErr (List Nat) × Controller :=
  let locked : Controller := { c with lockFree := false }
  let body : Except PyErr (List Nat) × Hid :=
    match pySet (List.replicate maxLength 0x00) 1 command with
    | .error e => (.error e, locked.hiddevice)
    | .ok b1 =>
      match pySet b1 2 param with
      | .error e => (.error e, locked.hiddevice)
      | .ok buffer =>
        match locked.hiddevice.write buffer with
        | (.error e, h1) => (.error e, h1)
        | (.ok _result, h1) =>
          match h1.read maxLength timeoutMs with
          | (.error e, h2) => (.error e, h2)
          | (.ok answer, h2) => (.ok answer, h2)
  (body.1, { hiddevice := body.2, lockFree := c.lockFree })

/-- Controller.switchOn: send SETONOFF with RUN, discarding the
response. -/
def switchOn (c : Controller) : Except PyErr Unit × Controller :=
  let r := sendCommand c SETONOFF RUN 16 100
  (r.1.map fun _ => (), r.2)

/-- Controller.switchOff: send SETONOFF with SLEEP, discarding the
response. -/
def switchOff (c : Controller) : Except PyErr Unit × Controller :=
  let r := sendCommand c SETONOFF SLEEP 16 100
  (r.1.map fun _ => (), r.2)

/-- Controller.getOnOff: send GETONOFF and return response byte 1. -/
def getOnOff (c : Controller) : Except PyErr Nat × Controller :=
  let r := sendCommand c GETONOFF 0 16 100
  match r.1 with
  | .error e => (.error e, r.2)
  | .ok res => (pyGet res 1, r.2)

/-- Controller.setDiskPosition: send SETDISK with the new position,
discarding the response. -/
def setDiskPosition (c : Controller) (newDiskPosition : Nat) :
    Except PyErr Unit × Controller :=
  let r := sendCommand c SETDISK newDiskPosition 16 100
  (r.1.map fun _ => (), r.2)

/-- Controller.getDiskPosition: send GETDISK and return response
byte 1. -/
def getDiskPosition (c : Controller) : Except PyErr Nat × Controller :=
  let r := sendCommand c GETDISK 0 16 100
  match r.1 with
  | .error e => (.error e, r.2)
  | .ok res => (pyGet res 1, r.2)

/-- Controller.setFilterPosition: send SETFILT with the new position,
discarding the response. -/
def setFilterPosition (c : Controller) (filterPosition : Nat) :
    Except PyErr Unit × Controller :=
  let r := sendCommand c SETFILT filterPosition 16 100
  (r.1.map fun _ => (), r.2)

/-- Controller.getFilterPosition: send GETFILT and return response
byte 1. -/
def getFilterPosition (c : Controller) : Except PyErr Nat × Controller :=
  let r := sendCommand c GETFILT 0 16 100
  match r.1 with
  | .error e => (.error e, r.2)
  | .ok res => (pyGet res 1, r.2)

/-- Controller.setCalibrationLED: send SETCAL with the LED state,
discarding the response. -/
def setCalibrationLED (c : Controller) (calLED : Nat) :
    Except PyErr Unit × Controller :=
  let r := sendCommand c SETCAL calLED 16 100
  (r.1.map fun _ => (), r.2)

/-- Controller.getCalibrationLED: send GETCAL and return response
byte 1. -/
def getCalibrationLED (c : Controller) : Except PyErr Nat × Controller :=
  let r := sendCommand c GETCAL 0 16 100
  match r.1 with
  | .error e => (.error e, r.2)
  | .ok res => (pyGet res 1, r.2)

/-- Controller.getDoor: send GETDOOR and return response byte 1. -/
def getDoor (c : Controller) : Except PyErr Nat × Controller :=
  let r := sendCommand c GETDOOR 0 16 100
  match r.1 with
  | .error e => (.error e, r.2)
  | .ok res => (pyGet res 1, r.2)

/-- Controller.getSerialNumber: send GETSERIAL and combine the BCD
nibbles of response bytes 4,3,2,1; the Python expression evaluates its
subscripts left to right, so res[4] is read first. -/
def getSerialNumber (c : Controller) : Except PyErr Nat × Controller :=
  let r := sendCommand c GETSERIAL 0 16 100
  match r.1 with
  | .error e => (.error e, r.2)
  | .ok res =>
    let v : Except PyErr Nat := do
      let r4 ← pyGet res 4
      let r3 ← pyGet res 3
      let r2 ← pyGet res 2
      let r1 ← pyGet res 1
      pure ((r4 / 16) * 10000000 + (r4 % 16) * 1000000
        + (r3 / 16) * 100000 + (r3 % 16) * 10000
        + (r2 / 16) * 1000 + (r2 % 16) * 100
        + (r1 / 16) * 10 + (r1 % 16))
    (v, r.2)

/-- The value getFullStat returns: version triple from bytes 1-3, then
the five status bytes 4-8 in order onOff, door, disk, filter, cal. -/
structure FullStat where
  version : Nat × Nat × Nat
  onOff : Nat
  door : Nat
  disk : Nat
  filter : Nat
  cal : Nat
  deriving DecidableEq, Repr

/-- Controller.getFullStat: send FULLSTAT and build the record from
response bytes 1-8; the Python list display evaluates res[1] first. -/
def getFullStat (c : Controller) : Except PyErr FullStat × Controller :=
  let r := sendCommand c FULLSTAT 0 16 100
  match r.1 with
  | .error e => (.error e, r.2)
  | .ok res =>
    let v : Except PyErr FullStat := do
      let r1 ← pyGet res 1
      let r2 ← pyGet res 2
      let r3 ← pyGet res 3
      let r4 ← pyGet res 4
      let r5 ← pyGet res 5
      let r6 ← pyGet res 6
      let r7 ← pyGet res 7
      let r8 ← pyGet res 8
      pure ⟨(r1, r2, r3), r4, r5, r6, r7, r8⟩
    (v, r.2)

/-- Controller.getVersion: send GETVERSION and return response bytes
1-3 as a triple. -/
def getVersion (c : Controller) : Except PyErr (Nat × Nat × Nat) × Controller :=
  let r := sendCommand c GETVERSION 0 16 100
  match r.1 with
  | .error e => (.error e, r.2)
  | .ok res =>
    let v : Except PyErr (Nat × Nat × Nat) := do
      let r1 ← pyGet res 1
      let r2 ← pyGet res 2
      let r3 ← pyGet res 3
      pure (r1, r2, r3)
    (v, r.2)

/-- A freshly opened controller whose transport will report writeRet
from writes and deliver readRet to reads. -/
def mkOpen (writeRet : Int) (readRet : List Nat) : Controller :=
  { hiddevice :=
      { isOpen := true, writeRet := writeRet, readRet := readRet,
        writeAttempts := 0, readAttempts := 0, written := [] },
    lockFree := true }

end Clarity

namespace Clarity

/-- Every entry of a replicated zero list reads back as zero. -/
theorem get?_replicate_eq (m j : Nat) (hj : j < m) :
    (List.replicate m (0 : Nat)).get? j = some 0 := by
  induction m generalizing j with
  | zero => omega
  | succ m ih =>
    cases j with
    | zero => rfl
    | succ j => exact ih j (by omega)

/-- Claim C1: for every command byte, parameter byte and frame length of
at least 3, the buffer construction in sendCommand writes a frame of
exactly the requested length whose byte 0 is zero, byte 1 is the
command, byte 2 is the parameter, and every remaining byte is zero. -/
theorem c1_frame_build (command param n t : Nat) (w : Int) (r : List Nat) (h : 3 ≤ n) :
    ∃ frame : List Nat,
      (sendCommand (mkOpen w r) command param n t).2.hiddevice.written = [frame] ∧
      frame.length = n ∧
      frame.get? 0 = some 0 ∧
      frame.get? 1 = some command ∧
      frame.get? 2 = some param ∧
      ∀ i, 3 ≤ i → i < n → frame.get? i = some 0 := by
  obtain ⟨m, rfl⟩ : ∃ m, n = m + 3 := ⟨n - 3, by omega⟩
  have h1 : pySet (List.replicate (m + 3) 0x00) 1 command
      = .ok (0 :: command :: 0 :: List.replicate m 0) := rfl
  have h2 : pySet (0 :: command :: 0 :: List.replicate m 0) 2 param
      = .ok (0 :: command :: param :: List.replicate m 0) := by
    have hlt : 2 < (0 :: command :: 0 :: List.replicate m 0).length := by
      simp only [List.length_cons]
      omega
    unfold pySet
    rw [if_pos hlt]
    rfl
  have hsend : sendCommand (mkOpen w r) command param (m + 3) t
      = (.ok (r.take (m + 3)),
         ⟨⟨true, w, r, 1, 1, [0 :: command :: param :: List.replicate m 0]⟩, true⟩) := by
    simp [sendCommand, h1, h2, Hid.write, Hid.read, mkOpen]
  rw [hsend]
  refine ⟨0 :: command :: param :: List.replicate m 0, rfl, ?_, rfl, rfl, rfl, ?_⟩
  · simp only [List.length_cons, List.length_replicate]
  · intro i h3 hlt
    obtain ⟨j, rfl⟩ : ∃ j, i = j + 3 := ⟨i - 3, by omega⟩
    show (List.replicate m (0 : Nat)).get? j = some 0
    exact get?_replicate_eq m j (by omega)

/-- Claim C1 witness: the frame properties hold at the concrete call
sending GETONOFF with parameter RUN in a 16-byte frame. -/
theorem c1_frame_build_witness :
    ∃ frame : List Nat,
      (sendCommand (mkOpen 16 []) GETONOFF RUN 16 100).2.hiddevice.written = [frame] ∧
      frame.length = 16 ∧
      frame.get? 0 = some 0 ∧
      frame.get? 1 = some GETONOFF ∧
      frame.get? 2 = some RUN ∧
      ∀ i, 3 ≤ i → i < 16 → frame.get? i = some 0 :=
  c1_frame_build GETONOFF RUN 16 100 16 [] (by decide)

/-- Claim C2: getSerialNumber reads response bytes 1-4 as packed BCD in
little-endian significance order (byte 4 most significant pair) and
returns the eight-digit decimal value; in particular bytes
0x34, 0x12, 0x00, 0x00 at offsets 1-4 give 1234, and all-zero bytes
give 0. -/
theorem c2_serial_bcd (b0 b1 b2 b3 b4 : Nat) (rest : List Nat) (w : Int) :
    (getSerialNumber (mkOpen w (b0 :: b1 :: b2 :: b3 :: b4 :: rest))).1 =
      .ok ((b4 / 16) * 10000000 + (b4 % 16) * 1000000
        + (b3 / 16) * 100000 + (b3 % 16) * 10000
        + (b2 / 16) * 1000 + (b2 % 16) * 100
        + (b1 / 16) * 10 + (b1 % 16)) ∧
    (getSerialNumber (mkOpen 16 [0, 0x34, 0x12, 0x00, 0x00])).1 = .ok 1234 ∧
    (getSerialNumber (mkOpen 16 [0, 0x00, 0x00, 0x00, 0x00])).1 = .ok 0 :=
  ⟨rfl, rfl, rfl⟩

/-- Claim C3: getFullStat returns response bytes 1-3 as the version
triple and bytes 4-8 as onOff, door, disk, filter, cal in that order;
the synthetic response with version (1,2,3), onOff 0x0F, door 0x01,
disk 0x02, filter 0x03, cal 0x01 decodes to exactly that record. -/
theorem c3_fullstat (b0 b1 b2 b3 b4 b5 b6 b7 b8 : Nat) (rest : List Nat) (w : Int) :
    (getFullStat (mkOpen w (b0 :: b1 :: b2 :: b3 :: b4 :: b5 :: b6 :: b7 :: b8 :: rest))).1 =
      .ok ⟨(b1, b2, b3), b4, b5, b6, b7, b8⟩ ∧
    (getFullStat (mkOpen 16 [0, 1, 2, 3, 0x0F, 0x01, 0x02, 0x03, 0x01])).1 =
      .ok ⟨(1, 2, 3), 0x0F, 0x01, 0x02, 0x03, 0x01⟩ :=
  ⟨rfl, rfl⟩

/-- Claim C5 counterexample: when the read delivers nothing within the
timeout (hidapi returns an empty list), sendCommand does not fail at
all: it returns the empty response as a normal value, so no
TransportTimeout error is raised. -/
theorem c5_timeout_counterexample :
    (sendCommand (mkOpen 16 []) GETONOFF 0 16 100).1 = .ok [] ∧
    (sendCommand (mkOpen 16 []) GETONOFF 0 16 100).2.lockFree = true :=
  ⟨rfl, rfl⟩

/-- Claim C5 as amended: when the transport read delivers no complete
response within the timeout, sendCommand returns the empty byte list as
an ordinary result (the code defines no TransportTimeout error and
never inspects the answer's length); the lock is released afterwards,
so a subsequent transaction on the same controller succeeds. -/
theorem c5_timeout_returns_empty (w : Int) (cmd p t cmd2 p2 t2 : Nat) :
    (sendCommand (mkOpen w []) cmd p 16 t).1 = .ok [] ∧
    (sendCommand (mkOpen w []) cmd p 16 t).2.lockFree = true ∧
    (sendCommand (sendCommand (mkOpen w []) cmd p 16 t).2 cmd2 p2 16 t2).1 = .ok [] :=
  ⟨rfl, rfl, rfl⟩

/-- Claim C6 counterexample: after the handle is closed, getOnOff does
not fail with any session-level error and does not avoid the
transport: it calls into the closed hid handle (the write-attempt
counter increases) and the hid library's closed-device error is what
propagates. -/
theorem c6_closed_counterexample :
    (getOnOff ⟨Hid.close (mkOpen 16 [0, RUN]).hiddevice, true⟩).1 = .error .hidClosed ∧
    (getOnOff ⟨Hid.close (mkOpen 16 [0, RUN]).hiddevice, true⟩).2.hiddevice.writeAttempts = 1 :=
  ⟨rfl, rfl⟩

/-- Claim C6 as amended: the controller keeps no open/closed state and
defines no SessionClosed error; an operation after release still builds
the frame and calls the transport, and the hid library's closed-device
error is surfaced (the read is never reached). Closing is idempotent:
closing an already closed handle is a no-op, and __del__ without an
opened device does nothing. -/
theorem c6_closed_no_guard (h : Hid) (cmd p t : Nat) (hc : h.isOpen = false) :
    (sendCommand ⟨h, true⟩ cmd p 16 t).1 = .error .hidClosed ∧
    (sendCommand ⟨h, true⟩ cmd p 16 t).2.hiddevice.writeAttempts = h.writeAttempts + 1 ∧
    (sendCommand ⟨h, true⟩ cmd p 16 t).2.hiddevice.readAttempts = h.readAttempts ∧
    Hid.close (Hid.close h) = Hid.close h ∧
    delController false h = h := by
  obtain ⟨o, wr, rr, wa, ra, ws⟩ := h
  cases hc
  exact ⟨rfl, rfl, rfl, rfl, rfl⟩

/-- Claim C6 witness: the amended statement at a concrete closed
handle. -/
theorem c6_closed_no_guard_witness :
    (sendCommand ⟨⟨false, 16, [], 0, 0, []⟩, true⟩ GETONOFF 0 16 100).1 = .error .hidClosed ∧
    (sendCommand ⟨⟨false, 16, [], 0, 0, []⟩, true⟩ GETONOFF 0 16 100).2.hiddevice.writeAttempts = 0 + 1 ∧
    (sendCommand ⟨⟨false, 16, [], 0, 0, []⟩, true⟩ GETONOFF 0 16 100).2.hiddevice.readAttempts = 0 ∧
    Hid.close (Hid.close ⟨false, 16, [], 0, 0, []⟩) = Hid.close ⟨false, 16, [], 0, 0, []⟩ ∧
    delController false ⟨false, 16, [], 0, 0, []⟩ = ⟨false, 16, [], 0, 0, []⟩ :=
  c6_closed_no_guard ⟨false, 16, [], 0, 0, []⟩ GETONOFF 0 100 rfl

/-- Claim C7 counterexample: getFullStat on a 1-byte response fails
with the Python IndexError from the out-of-range subscript at offset 1,
not with a distinct MalformedResponse condition (none exists in the
code). -/
theorem c7_short_counterexample :
    (getFullStat (mkOpen 16 [0x1F])).1 = .error (.indexOutOfRange 1) :=
  rfl

/-- Claim C7 as amended: a response shorter than the decoded field
requires makes the decode fail with an IndexError at the first
out-of-range offset it reads (an out-of-bounds subscript, since the
code performs no length check and defines no MalformedResponse); in
particular getFullStat on any response shorter than 9 bytes fails this
way, and getOnOff fails at offset 1 on a response shorter than 2
bytes. -/
theorem c7_short_index_error (w : Int) (r : List Nat) (h9 : r.length < 9) :
    (∃ i, 1 ≤ i ∧ i ≤ 8 ∧ r.length ≤ i ∧
      (getFullStat (mkOpen w r)).1 = .error (.indexOutOfRange i)) ∧
    (r.length < 2 → (getOnOff (mkOpen w r)).1 = .error (.indexOutOfRange 1)) := by
  constructor
  · rcases r with _ | ⟨a0, _ | ⟨a1, _ | ⟨a2, _ | ⟨a3, _ | ⟨a4, _ | ⟨a5, _ | ⟨a6, _ | ⟨a7, rest⟩⟩⟩⟩⟩⟩⟩⟩
    · exact ⟨1, by decide, by decide, by simp, rfl⟩
    · exact ⟨1, by decide, by decide, by simp, rfl⟩
    · exact ⟨2, by decide, by decide, by simp, rfl⟩
    · exact ⟨3, by decide, by decide, by simp, rfl⟩
    · exact ⟨4, by decide, by decide, by simp, rfl⟩
    · exact ⟨5, by decide, by decide, by simp, rfl⟩
    · exact ⟨6, by decide, by decide, by simp, rfl⟩
    · exact ⟨7, by decide, by decide, by simp, rfl⟩
    · rcases rest with _ | ⟨a8, rest'⟩
      · exact ⟨8, by decide, by decide, by simp, rfl⟩
      · exfalso
        simp only [List.length_cons] at h9
        omega
  · intro h2
    rcases r with _ | ⟨a0, _ | ⟨a1, rest⟩⟩
    · rfl
    · rfl
    · exfalso
      simp only [List.length_cons] at h2
      omega

/-- Claim C7 witness: the amended statement at the concrete 1-byte
response. -/
theorem c7_short_index_error_witness :
    (∃ i, 1 ≤ i ∧ i ≤ 8 ∧ ([0x1F] : List Nat).length ≤ i ∧
      (getFullStat (mkOpen 16 [0x1F])).1 = .error (.indexOutOfRange i)) ∧
    (([0x1F] : List Nat).length < 2 →
      (getOnOff (mkOpen 16 [0x1F])).1 = .error (.indexOutOfRange 1)) :=
  c7_short_index_error 16 [0x1F] (by decide)

/-- Claim C8 counterexample: with a transport whose write reports
failure (returns -1), sendCommand neither fails nor aborts: it goes on
to perform the read (the read counter reaches 1) and returns the read's
bytes, so no TransportWriteError is raised. -/
theorem c8_write_counterexample :
    (sendCommand (mkOpen (-1) [0, 5]) GETONOFF 0 16 100).1 = .ok [0, 5] ∧
    (sendCommand (mkOpen (-1) [0, 5]) GETONOFF 0 16 100).2.hiddevice.readAttempts = 1 :=
  ⟨rfl, rfl⟩

/-- Claim C8 as amended: sendCommand binds the write's return value but
never inspects it; whatever count the write reports, including a
failure or short-write indication, the transaction proceeds to the read
and returns the read's result (the code defines no
TransportWriteError). -/
theorem c8_write_result_ignored (w : Int) (r : List Nat) (cmd p t : Nat) :
    (sendCommand (mkOpen w r) cmd p 16 t).1 = .ok (r.take 16) ∧
    (sendCommand (mkOpen w r) cmd p 16 t).2.hiddevice.readAttempts = 1 ∧
    (sendCommand (mkOpen w r) cmd p 16 t).2.hiddevice.writeAttempts = 1 :=
  ⟨rfl, rfl, rfl⟩

/-- Claim C9: calling sendCommand with maxLength below 3 fails while
building the frame, with an IndexError at offset 1 (for maxLength 0 or
1) or offset 2 (for maxLength 2); the controller's state is untouched,
so no transport write happened and the lock is free again
afterwards. -/
theorem c9_short_buffer (c : Controller) (cmd p t n : Nat) (h : n < 3) :
    (sendCommand c cmd p n t).1 = .error (.indexOutOfRange (if n ≤ 1 then 1 else 2)) ∧
    (sendCommand c cmd p n t).2 = c := by
  interval_cases n
  · exact ⟨rfl, rfl⟩
  · exact ⟨rfl, rfl⟩
  · exact ⟨rfl, rfl⟩

/-- Claim C9 witness: the concrete call with maxLength 2 fails at
offset 2 and leaves the controller unchanged. -/
theorem c9_short_buffer_witness :
    (sendCommand (mkOpen 16 []) GETONOFF 0 2 100).1 = .error (.indexOutOfRange 2) ∧
    (sendCommand (mkOpen 16 []) GETONOFF 0 2 100).2 = mkOpen 16 [] :=
  c9_short_buffer (mkOpen 16 []) GETONOFF 0 100 2 (by decide)

/-- Claim C10: every set accessor discards the response and returns
unit, completing normally even when the read yields an empty or
one-byte response, while every get accessor fails on such a response
with an IndexError (at offset 1 for the status-byte and version
getters, and at offset 4 for getSerialNumber, whose expression reads
res[4] first). -/
theorem c10_set_discard_get_index (w : Int) (r : List Nat) (p : Nat) (h : r.length < 2) :
    (switchOn (mkOpen w r)).1 = .ok () ∧
    (switchOff (mkOpen w r)).1 = .ok () ∧
    (setDiskPosition (mkOpen w r) p).1 = .ok () ∧
    (setFilterPosition (mkOpen w r) p).1 = .ok () ∧
    (setCalibrationLED (mkOpen w r) p).1 = .ok () ∧
    (getOnOff (mkOpen w r)).1 = .error (.indexOutOfRange 1) ∧
    (getDiskPosition (mkOpen w r)).1 = .error (.indexOutOfRange 1) ∧
    (getFilterPosition (mkOpen w r)).1 = .error (.indexOutOfRange 1) ∧
    (getCalibrationLED (mkOpen w r)).1 = .error (.indexOutOfRange 1) ∧
    (getDoor (mkOpen w r)).1 = .error (.indexOutOfRange 1) ∧
    (getVersion (mkOpen w r)).1 = .error (.indexOutOfRange 1) ∧
    (getSerialNumber (mkOpen w r)).1 = .error (.indexOutOfRange 4) ∧
    (getFullStat (mkOpen w r)).1 = .error (.indexOutOfRange 1) := by
  rcases r with _ | ⟨a0, _ | ⟨a1, rest⟩⟩
  · exact ⟨rfl, rfl, rfl, rfl, rfl, rfl, rfl, rfl, rfl, rfl, rfl, rfl, rfl⟩
  · exact ⟨rfl, rfl, rfl, rfl, rfl, rfl, rfl, rfl, rfl, rfl, rfl, rfl, rfl⟩
  · exfalso
    simp only [List.length_cons] at h
    omega

/-- Claim C10 witness: at the concrete one-byte response, a set
accessor completes normally while getOnOff fails at offset 1. -/
theorem c10_set_discard_get_index_witness :
    (switchOn (mkOpen 16 [7])).1 = .ok () ∧
    (getOnOff (mkOpen 16 [7])).1 = .error (.indexOutOfRange 1) := by
  have hx := c10_set_discard_get_index 16 [7] 1 (by decide)
  exact ⟨hx.1, hx.2.2.2.2.2.1⟩

end Clarity

namespace Clarity

/-- An I/O event against the shared hid handle: a write or a read
performed by thread t (two client threads, named by Bool). -/
inductive Ev where
  | wr (t : Bool)
  | rd (t : Bool)
  deriving DecidableEq, Repr

/-- Global state of two threads concurrently calling sendCommand on one
Controller. pc t is thread t's position in sendCommand's body
(controller.py lines 137-143): 0 before the with-statement, 1 holding
the lock before the write, 2 between its write and its read, 3 after
the read still holding the lock, 4 after release. owner is the holder
of the threading.Lock, and trace records the hid I/O events, most
recent first. -/
structure Sys where
  pc : Bool → Nat
  owner : Option Bool
  trace : List Ev

/-- One scheduler step: a thread executes the next instruction of
sendCommand. Acquiring blocks while another thread holds the lock; the
write and the read are single atomic calls into the handle, as in the
source where each is one hidapi call. -/
inductive Step : Sys → Sys → Prop where
  | acquire (s : Sys) (t : Bool) : s.pc t = 0 → s.owner = none →
      Step s { pc := fun u => if u = t then 1 else s.pc u,
               owner := some t, trace := s.trace }
  | hidWrite (s : Sys) (t : Bool) : s.pc t = 1 →
      Step s { pc := fun u => if u = t then 2 else s.pc u,
               owner := s.owner, trace := Ev.wr t :: s.trace }
  | hidRead (s : Sys) (t : Bool) : s.pc t = 2 →
      Step s { pc := fun u => if u = t then 3 else s.pc u,
               owner := s.owner, trace := Ev.rd t :: s.trace }
  | release (s : Sys) (t : Bool) : s.pc t = 3 →
      Step s { pc := fun u => if u = t then 4 else s.pc u,
               owner := none, trace := s.trace }

/-- The initial state: neither thread has entered sendCommand, the lock
is free, no I/O has happened. -/
def init : Sys := { pc := fun _ => 0, owner := none, trace := [] }

/-- States the two-thread system can reach from init. -/
def Reachable (s : Sys) : Prop := Relation.ReflTransGen Step init s

/-- A trace (most recent event first) consisting of complete
transactions only: each write is immediately followed by the same
thread's read, with no foreign event in between. -/
inductive Paired : List Ev → Prop where
  | nil : Paired []
  | pair (t : Bool) (rest : List Ev) : Paired rest →
      Paired (Ev.rd t :: Ev.wr t :: rest)

/-- Thread t is inside the critical section of sendCommand. -/
def InCrit (s : Sys) (t : Bool) : Prop :=
  s.pc t = 1 ∨ s.pc t = 2 ∨ s.pc t = 3

/-- The inductive invariant: whoever is inside the critical section
owns the lock, and the trace is fully paired except possibly for the
write of the one thread currently between its write and its read. -/
def Inv (s : Sys) : Prop :=
  (∀ t, InCrit s t → s.owner = some t) ∧
  (((∀ t, s.pc t ≠ 2) ∧ Paired s.trace) ∨
   (∃ t rest, s.pc t = 2 ∧ s.trace = Ev.wr t :: rest ∧ Paired rest))

/-- The invariant holds initially. -/
theorem inv_init : Inv init := by
  constructor
  · intro t ht
    rcases ht with h | h | h <;> simp [init] at h
  · left
    exact ⟨fun t => by simp [init], Paired.nil⟩

/-- The invariant is preserved by every step. -/
theorem inv_step (s s' : Sys) (hs : Step s s') (hi : Inv s) : Inv s' := by
  obtain ⟨hown, htr⟩ := hi
  cases hs with
  | acquire t h0 hnone =>
    have hno2 : ∀ u, s.pc u ≠ 2 := by
      intro u hu
      have := hown u (Or.inr (Or.inl hu))
      rw [hnone] at this
      exact Option.noConfusion this
    constructor
    · intro u hu
      by_cases hut : u = t
      · simp [hut]
      · exfalso
        rcases hu with h | h | h <;> simp only [if_neg hut] at h
        · have := hown u (Or.inl h)
          rw [hnone] at this
          exact Option.noConfusion this
        · exact hno2 u h
        · have := hown u (Or.inr (Or.inr h))
          rw [hnone] at this
          exact Option.noConfusion this
    · left
      constructor
      · intro u
        by_cases hut : u = t
        · simp [hut]
        · simp only [if_neg hut]
          exact hno2 u
      · rcases htr with ⟨_, hp⟩ | ⟨u, rest, hu2, _, _⟩
        · exact hp
        · exact absurd hu2 (hno2 u)
  | hidWrite t h1 =>
    have howt : s.owner = some t := hown t (Or.inl h1)
    have hno2 : ∀ u, s.pc u ≠ 2 := by
      intro u hu
      have := (hown u (Or.inr (Or.inl hu))).symm.trans howt
      have hut : u = t := Option.some.inj this
      rw [hut] at hu
      rw [h1] at hu
      exact absurd hu (by decide)
    constructor
    · intro u hu
      by_cases hut : u = t
      · rw [hut]
        exact howt
      · rcases hu with h | h | h <;> simp only [if_neg hut] at h
        · exact hown u (Or.inl h)
        · exact hown u (Or.inr (Or.inl h))
        · exact hown u (Or.inr (Or.inr h))
    · right
      refine ⟨t, s.trace, by simp, rfl, ?_⟩
      rcases htr with ⟨_, hp⟩ | ⟨u, rest, hu2, _, _⟩
      · exact hp
      · exact absurd hu2 (hno2 u)
  | hidRead t h2 =>
    have howt : s.owner = some t := hown t (Or.inr (Or.inl h2))
    rcases htr with ⟨hq, _⟩ | ⟨u, rest, hu2, htrace, hrest⟩
    · exact absurd h2 (hq t)
    · have hut : u = t := by
        have := (hown u (Or.inr (Or.inl hu2))).symm.trans howt
        exact Option.some.inj this
      constructor
      · intro v hv
        by_cases hvt : v = t
        · rw [hvt]
          exact howt
        · rcases hv with h | h | h <;> simp only [if_neg hvt] at h
          · exact hown v (Or.inl h)
          · exact hown v (Or.inr (Or.inl h))
          · exact hown v (Or.inr (Or.inr h))
      · left
        constructor
        · intro v
          by_cases hvt : v = t
          · simp [hvt]
          · simp only [if_neg hvt]
            intro hv2
            have := (hown v (Or.inr (Or.inl hv2))).symm.trans howt
            exact hvt (Option.some.inj this)
        · show Paired (Ev.rd t :: s.trace)
          rw [htrace, hut]
          exact Paired.pair t rest hrest
  | release t h3 =>
    have howt : s.owner = some t := hown t (Or.inr (Or.inr h3))
    have honly : ∀ u, InCrit s u → u = t := by
      intro u hu
      exact Option.some.inj ((hown u hu).symm.trans howt)
    constructor
    · intro u hu
      exfalso
      by_cases hut : u = t
      · rcases hu with h | h | h <;> rw [hut] at h <;> simp at h
      · rcases hu with h | h | h <;> simp only [if_neg hut] at h
        · exact hut (honly u (Or.inl h))
        · exact hut (honly u (Or.inr (Or.inl h)))
        · exact hut (honly u (Or.inr (Or.inr h)))
    · left
      constructor
      · intro u
        by_cases hut : u = t
        · simp [hut]
        · simp only [if_neg hut]
          intro hu2
          have := honly u (Or.inr (Or.inl hu2))
          rw [this] at hu2
          rw [h3] at hu2
          exact absurd hu2 (by decide)
      · rcases htr with ⟨_, hp⟩ | ⟨u, rest, hu2, _, _⟩
        · exact hp
        · exfalso
          have := honly u (Or.inr (Or.inl hu2))
          rw [this] at hu2
          rw [h3] at hu2
          exact absurd hu2 (by decide)

/-- Every reachable state satisfies the invariant. -/
theorem inv_reachable (s : Sys) (h : Reachable s) : Inv s := by
  induction h with
  | refl => exact inv_init
  | tail hab hbc ih => exact inv_step _ _ hbc ih

/-- Claim C4: with two threads concurrently calling sendCommand on the
same Controller, the lock serializes the transactions: in every
reachable state at most one thread is inside the write+read critical
section, and whenever no write is awaiting its read the I/O trace
decomposes into complete transactions, each write immediately followed
by the same thread's read, never interleaved with the other thread's
events. -/
theorem c4_lock_serializes (s : Sys) (h : Reachable s) :
    (∀ t u, InCrit s t → InCrit s u → t = u) ∧
    ((∀ t, s.pc t ≠ 2) → Paired s.trace) := by
  obtain ⟨hown, htr⟩ := inv_reachable s h
  constructor
  · intro t u ht hu
    exact Option.some.inj ((hown t ht).symm.trans (hown u hu))
  · intro hq
    rcases htr with ⟨_, hp⟩ | ⟨t, rest, h2, _, _⟩
    · exact hp
    · exact absurd h2 (hq t)

/-- Claim C4 witness: a complete two-thread schedule is reachable and
its trace is fully paired. -/
theorem c4_lock_serializes_witness :
    Paired [Ev.rd true, Ev.wr true, Ev.rd false, Ev.wr false] := by
  have hr := Relation.ReflTransGen.head (Step.acquire init false rfl rfl)
    (Relation.ReflTransGen.head (Step.hidWrite _ false rfl)
    (Relation.ReflTransGen.head (Step.hidRead _ false rfl)
    (Relation.ReflTransGen.head (Step.release _ false rfl)
    (Relation.ReflTransGen.head (Step.acquire _ true rfl rfl)
    (Relation.ReflTransGen.head (Step.hidWrite _ true rfl)
    (Relation.ReflTransGen.head (Step.hidRead _ true rfl)
    (Relation.ReflTransGen.head (Step.release _ true rfl)
    Relation.ReflTransGen.refl)))))))
  refine (c4_lock_serializes _ hr).2 ?_
  intro t
  cases t <;> decide

end Clarity
